import Mathlib

/-!
Verification of the Synapse compiler middle-end against its specification.

This file shallowly embeds the Rust sources of the `asg_core`,
`type_checker_l1`, `type_checker_l2`, `synapse_cli` (linter) and
`asg_to_upir` crates, and proves or refutes the specification's claims
about them.  Machine integers (`u64`, `i64`, `u32`) are modelled as `Nat`
or `Int`, with an explicit `% 2 ^ 64` exactly where the Rust code can wrap
(the id counter, byte encodings).  Rust `HashMap`s are modelled as
association lists with replace-on-insert semantics; iteration order of a
`HashMap` is unspecified in Rust, and the list order plays that role here
(every property proved below is insensitive to it, or is evaluated on
graphs where the order is irrelevant).  Functions that can diverge on
cyclic graphs (the Rust code would overflow the stack there) take a fuel
argument and return a distinguished out-of-fuel value.
-/

set_option autoImplicit false

universe u v

/-- Association-list lookup, modelling `HashMap::get`. -/
def alookup {α : Type u} {β : Type v} [DecidableEq α] : List (α × β) → α → Option β
  | [], _ => none
  | (k, v) :: rest, a => if k = a then some v else alookup rest a

/-- Association-list insert, modelling `HashMap::insert` (replaces any
existing binding for the key). -/
def hmInsert {α : Type u} {β : Type v} [DecidableEq α] (l : List (α × β)) (k : α) (v : β) :
    List (α × β) :=
  l.filter (fun p => p.1 ≠ k) ++ [(k, v)]

/-- Result of running embedded Rust code: success, the Rust `Err` case, or
out of fuel (the Rust original would recurse without bound there). -/
inductive Res (ε : Type u) (α : Type v) where
  | ok (a : α)
  | err (e : ε)
  | fuel
deriving DecidableEq, Repr

def Res.bind {ε : Type u} {α β : Type v} : Res ε α → (α → Res ε β) → Res ε β
  | .ok a, f => f a
  | .err e, _ => .err e
  | .fuel, _ => .fuel

instance {ε : Type u} : Monad (Res ε) where
  pure := Res.ok
  bind := Res.bind

/-- Little-endian 8-byte encoding of a `u64` (`u64::to_le_bytes`). -/
def u64le (n : Nat) : List Nat :=
  [n % 256, n / 256 % 256, n / 256 ^ 2 % 256, n / 256 ^ 3 % 256,
   n / 256 ^ 4 % 256, n / 256 ^ 5 % 256, n / 256 ^ 6 % 256, n / 256 ^ 7 % 256]

/-- Little-endian 8-byte encoding of an `i64` (two's complement, as
`i64::to_le_bytes`). -/
def i64le (i : Int) : List Nat :=
  u64le ((i % (2 ^ 64 : Int)).toNat)

/-- Little-endian 4-byte encoding of a `u32` (`u32::to_le_bytes`). -/
def u32le (n : Nat) : List Nat :=
  [n % 256, n / 256 % 256, n / 256 ^ 2 % 256, n / 256 ^ 3 % 256]

/-- The UTF-8 bytes of an ASCII string literal (used for the constant
variant markers such as `b"TermVariable"` in `hash.rs`). -/
def asciiBytes (s : String) : List Nat :=
  s.data.map Char.toNat

-- ======================================================================
-- Embedding of `asg_core` (graph store, canonical hashing, serde)
-- ======================================================================

namespace AsgCore

/-- `TermVariable` payload (`asg_schema_v1.proto`); the `name` is kept as
its UTF-8 byte list, which is exactly what `hash.rs` consumes. -/
structure TermVariable where
  name : List Nat
  definition_node_id : Nat
deriving DecidableEq, Repr

structure TermLambda where
  binder_variable_node_id : Nat
  body_node_id : Nat
  type_annotation_id : Nat
deriving DecidableEq, Repr

structure TermApplication where
  function_node_id : Nat
  argument_node_id : Nat
deriving DecidableEq, Repr

structure LiteralInt where
  value : Int
deriving DecidableEq, Repr

structure LiteralBool where
  value : Bool
deriving DecidableEq, Repr

structure PrimitiveOp where
  op_name : List Nat
  argument_node_ids : List Nat
deriving DecidableEq, Repr

structure TermRef where
  init_value_node_id : Nat
deriving DecidableEq, Repr

structure TermDeref where
  ref_node_id : Nat
deriving DecidableEq, Repr

structure TermAssign where
  ref_node_id : Nat
  value_node_id : Nat
deriving DecidableEq, Repr

structure EffectPerform where
  effect_name : List Nat
  value_node_id : Nat
deriving DecidableEq, Repr

structure ProofObligation where
  description : List Nat
  related_code_node_id : Nat
  status : Nat
deriving DecidableEq, Repr

structure TypeFunctionData where
  parameter_type_id : Nat
  return_type_id : Nat
deriving DecidableEq, Repr

structure TypeRefData where
  element_type_id : Nat
deriving DecidableEq, Repr

/-- The `oneof content` of a `TypeNode`. -/
inductive TypeNodeContent where
  | TypeInt
  | TypeBool
  | TypeFunction (f : TypeFunctionData)
  | TypeRef (r : TypeRefData)
  | TypeUnit
deriving DecidableEq, Repr

structure TypeNode where
  node_id : Nat
  type_kind : Nat
  content : Option TypeNodeContent
deriving DecidableEq, Repr

structure SourceLocation where
  filename : List Nat
  start_line : Nat
  start_col : Nat
  end_line : Nat
  end_col : Nat
deriving DecidableEq, Repr

structure Metadata where
  node_id : Nat
  source_location : Option SourceLocation
  annotation_ids : List Nat
deriving DecidableEq, Repr

/-- The `oneof payload` of an `AsgNode` (`asg_node::Content`). -/
inductive Content where
  | TermVariable (v : TermVariable)
  | TermLambda (l : TermLambda)
  | TermApplication (a : TermApplication)
  | LiteralInt (l : LiteralInt)
  | LiteralBool (l : LiteralBool)
  | PrimitiveOp (op : PrimitiveOp)
  | TermRef (r : TermRef)
  | TermDeref (d : TermDeref)
  | TermAssign (a : TermAssign)
  | EffectPerform (e : EffectPerform)
  | ProofObligation (p : ProofObligation)
  | TypeNode (t : TypeNode)
  | Metadata (m : Metadata)
deriving DecidableEq, Repr

/-- A protobuf `AsgNode`: stable id, kind discriminator (`r#type`, stored
as an `i32`), and optional payload. -/
structure AsgNode where
  node_id : Nat
  type_ : Nat
  content : Option Content
deriving DecidableEq, Repr

/-- The in-memory graph (`graph.rs`): node map, id counter, optional root. -/
structure AsgGraph where
  nodes : List (Nat × AsgNode)
  next_id : Nat
  root_id : Option Nat
deriving DecidableEq, Repr

/-- `AsgGraph::new()`: empty map, counter at 1, no root. -/
def AsgGraph.new : AsgGraph :=
  { nodes := [], next_id := 1, root_id := none }

/-- `generate_id`: `fetch_add(1)` on the `u64` counter returns the old
value; the stored counter wraps at `2 ^ 64`. -/
def AsgGraph.generate_id (g : AsgGraph) : Nat × AsgGraph :=
  (g.next_id, { g with next_id := (g.next_id + 1) % 2 ^ 64 })

/-- `add_node`: allocate an id, insert the node under it, return the id. -/
def AsgGraph.add_node (g : AsgGraph) (node_type : Nat) (content : Content) :
    Nat × AsgGraph :=
  let (node_id, g') := g.generate_id
  let node : AsgNode := { node_id := node_id, type_ := node_type, content := some content }
  (node_id, { g' with nodes := hmInsert g'.nodes node_id node })

/-- `remove_node`: clears the root if it is the removed id; removes the
map entry. -/
def AsgGraph.remove_node (g : AsgGraph) (node_id : Nat) : AsgGraph :=
  { g with
    root_id := if g.root_id = some node_id then none else g.root_id,
    nodes := g.nodes.filter (fun p => p.1 ≠ node_id) }

/-- The protobuf graph message (`generated::AsgGraph`): node list plus a
root id where 0 means unset. -/
structure ProtoGraph where
  nodes : List AsgNode
  root_node_id : Nat
deriving DecidableEq, Repr

/-- `into_proto`: dump the map's values; `root_id.unwrap_or(0)`. -/
def AsgGraph.into_proto (g : AsgGraph) : ProtoGraph :=
  { nodes := g.nodes.map Prod.snd, root_node_id := g.root_id.getD 0 }

/-- One step of the `from_proto` node loop: insert keyed by the node's own
`node_id` field and advance the counter past it. -/
def fromProtoStep (st : List (Nat × AsgNode) × Nat) (node : AsgNode) :
    List (Nat × AsgNode) × Nat :=
  (hmInsert st.1 node.node_id node,
   if node.node_id ≥ st.2 then node.node_id + 1 else st.2)

/-- `from_proto`: rebuild the node table, advance the id counter, and set
the root only when the stored root id is non-zero and resolves. -/
def AsgGraph.from_proto (proto : ProtoGraph) : AsgGraph :=
  let st := proto.nodes.foldl fromProtoStep ([], AsgGraph.new.next_id)
  { nodes := st.1,
    next_id := st.2,
    root_id :=
      if proto.root_node_id ≠ 0 ∧ (alookup st.1 proto.root_node_id).isSome then
        some proto.root_node_id
      else none }

/-- Wire bytes of the binary format.  Modelled from the spec: the binary
form is the `prost` protobuf encoding of the graph message (§6.3); the
encoding (an external crate, not part of this repository) is lossless, so
the wire form is identified with the message it encodes. -/
def encodeProto (p : ProtoGraph) : ProtoGraph := p

/-- Modelled from the spec: `prost` decoding of the wire bytes produced by
`encodeProto` recovers the message (external crate, see `encodeProto`). -/
def decodeProto (p : ProtoGraph) : ProtoGraph := p

/-- `save_asg_binary` without the file I/O: encode `into_proto`. -/
def save_asg_binary (g : AsgGraph) : ProtoGraph :=
  encodeProto g.into_proto

/-- `load_asg_binary` without the file I/O: decode, then `from_proto`. -/
def load_asg_binary (w : ProtoGraph) : AsgGraph :=
  AsgGraph.from_proto (decodeProto w)

/-- The canonical byte stream `canonicalize_node` feeds to its BLAKE3
hasher: one kind byte (`node.r#type as u8`), then, when a payload is
present, a constant ASCII variant marker followed by the variant fields in
a fixed order (strings as raw UTF-8 bytes with no length prefix, ids and
integers little-endian). -/
def canonicalBytes (node : AsgNode) : List Nat :=
  [node.type_ % 256] ++
  (match node.content with
   | none => []
   | some c =>
     match c with
     | .TermVariable v =>
         asciiBytes "TermVariable" ++ v.name ++ u64le v.definition_node_id
     | .TermLambda l =>
         asciiBytes "TermLambda" ++ u64le l.binder_variable_node_id ++
         u64le l.body_node_id ++ u64le l.type_annotation_id
     | .TermApplication a =>
         asciiBytes "TermApplication" ++ u64le a.function_node_id ++
         u64le a.argument_node_id
     | .LiteralInt l => asciiBytes "LiteralInt" ++ i64le l.value
     | .LiteralBool l => asciiBytes "LiteralBool" ++ [if l.value then 1 else 0]
     | .PrimitiveOp op =>
         asciiBytes "PrimitiveOp" ++ op.op_name ++
         (op.argument_node_ids.map u64le).flatten
     | .TermRef r => asciiBytes "TermRef" ++ u64le r.init_value_node_id
     | .TermDeref d => asciiBytes "TermDeref" ++ u64le d.ref_node_id
     | .TermAssign a =>
         asciiBytes "TermAssign" ++ u64le a.ref_node_id ++ u64le a.value_node_id
     | .EffectPerform e =>
         asciiBytes "EffectPerform" ++ e.effect_name ++ u64le e.value_node_id
     | .ProofObligation p =>
         asciiBytes "ProofObligation" ++ p.description ++
         u64le p.related_code_node_id ++ [p.status % 256]
     | .TypeNode t =>
         asciiBytes "TypeNode" ++ u64le t.node_id ++ [t.type_kind % 256] ++
         (match t.content with
          | none => []
          | some .TypeInt => asciiBytes "TypeInt"
          | some .TypeBool => asciiBytes "TypeBool"
          | some (.TypeFunction f) =>
              asciiBytes "TypeFunction" ++ u64le f.parameter_type_id ++
              u64le f.return_type_id
          | some (.TypeRef r) => asciiBytes "TypeRef" ++ u64le r.element_type_id
          | some .TypeUnit => asciiBytes "TypeUnit")
     | .Metadata m =>
         asciiBytes "Metadata" ++ u64le m.node_id ++
         (match m.source_location with
          | none => []
          | some loc =>
              loc.filename ++ u32le loc.start_line ++ u32le loc.start_col ++
              u32le loc.end_line ++ u32le loc.end_col) ++
         (m.annotation_ids.map u64le).flatten)

/-- `canonicalize_node`: the BLAKE3 digest of the canonical byte stream.
`H` abstracts the BLAKE3 compression (`blake3` is an external crate); every
property proved below is independent of the choice of `H`. -/
def canonicalize_node (H : List Nat → List Nat) (node : AsgNode) : List Nat :=
  H (canonicalBytes node)

/-- `hash_node`: `blake3::hash` of the canonical representation. -/
def hash_node (H : List Nat → List Nat) (node : AsgNode) : List Nat :=
  H (canonicalize_node H node)

/-- The byte stream `hash_graph` feeds to its hasher: each node's
`hash_node` digest in ascending key order, then the root id (little
endian) when a root is set. -/
def hashGraphStream (H : List Nat → List Nat) (g : AsgGraph) : List Nat :=
  (((g.nodes.map Prod.fst).mergeSort (· ≤ ·)).map
      (fun node_id =>
        match alookup g.nodes node_id with
        | some node => hash_node H node
        | none => [])).flatten ++
  (match g.root_id with
   | some root_id => u64le root_id
   | none => [])

/-- `hash_graph`: BLAKE3 digest of the per-node digests and the root id. -/
def hash_graph (H : List Nat → List Nat) (g : AsgGraph) : List Nat :=
  H (hashGraphStream H g)

end AsgCore

-- ======================================================================
-- Embedding of the graph as consumed by the front-end crates
-- (`type_checker_l1`, `type_checker_l2`, `synapse_cli::linter`,
-- `asg_to_upir`): those crates read `graph.nodes` (id → node), a node's
-- `type_` discriminator and per-variant `Option` payload fields, and
-- `graph.root_node_id()`.
-- ======================================================================

namespace Front

inductive NodeType where
  | TermVariable
  | TermLambda
  | TermApplication
  | LiteralInt
  | LiteralBool
  | PrimitiveOp
  | TermRef
  | TermDeref
  | TermAssign
  | EffectPerform
  | ProofObligation
  | TypeNode
  | Metadata
  | TypeAbs
  | TypeApp
  | DataDef
  | DataCtor
  | DataMatch
  | Unknown
deriving DecidableEq, Repr

/-- Rust's `{:?}` rendering of a `NodeType` value (the variant name). -/
def NodeType.debugStr : NodeType → String
  | .TermVariable => "TermVariable"
  | .TermLambda => "TermLambda"
  | .TermApplication => "TermApplication"
  | .LiteralInt => "LiteralInt"
  | .LiteralBool => "LiteralBool"
  | .PrimitiveOp => "PrimitiveOp"
  | .TermRef => "TermRef"
  | .TermDeref => "TermDeref"
  | .TermAssign => "TermAssign"
  | .EffectPerform => "EffectPerform"
  | .ProofObligation => "ProofObligation"
  | .TypeNode => "TypeNode"
  | .Metadata => "Metadata"
  | .TypeAbs => "TypeAbs"
  | .TypeApp => "TypeApp"
  | .DataDef => "DataDef"
  | .DataCtor => "DataCtor"
  | .DataMatch => "DataMatch"
  | .Unknown => "Unknown"

structure TermVariable where
  name : String
  definition_node_id : Nat
deriving DecidableEq, Repr

structure TermLambda where
  binder_variable_node_id : Nat
  body_node_id : Nat
  type_annotation_id : Option Nat
deriving DecidableEq, Repr

structure TermApplication where
  function_node_id : Nat
  argument_node_id : Nat
deriving DecidableEq, Repr

structure PrimitiveOp where
  op_name : String
  argument_node_ids : List Nat
deriving DecidableEq, Repr

structure TermRef where
  init_value_node_id : Nat
deriving DecidableEq, Repr

structure TermDeref where
  ref_node_id : Nat
deriving DecidableEq, Repr

structure TermAssign where
  ref_node_id : Nat
  value_node_id : Nat
deriving DecidableEq, Repr

structure SourceLocation where
  filename : Option String
  start_line : Nat
  start_col : Nat
  end_line : Nat
  end_col : Nat
deriving DecidableEq, Repr

/-- `Metadata` payload: the `node_id` field is the target the metadata is
attached to. -/
structure Metadata where
  node_id : Nat
  source_location : Option SourceLocation
deriving DecidableEq, Repr

/-- Effect tags read by `type_checker_l2` (`node.effect_meta`). -/
structure EffectMeta where
  effect_tags : List String
deriving DecidableEq, Repr

/-- A node as the front-end crates read it: a `type_` discriminator and one
`Option` payload field per variant (absent fields default to `none`). -/
structure AsgNode where
  type_ : NodeType
  term_variable : Option TermVariable := none
  term_lambda : Option TermLambda := none
  term_application : Option TermApplication := none
  literal_int : Option Int := none
  literal_bool : Option Bool := none
  primitive_op : Option PrimitiveOp := none
  term_ref : Option TermRef := none
  term_deref : Option TermDeref := none
  term_assign : Option TermAssign := none
  metadata : Option Metadata := none
  effect_meta : Option EffectMeta := none
deriving DecidableEq, Repr

/-- The graph as these crates consume it: `nodes` map and
`root_node_id()` (0 when unset). -/
structure AsgGraph where
  nodes : List (Nat × AsgNode)
  root_node_id : Nat
deriving DecidableEq, Repr

/-- `graph.nodes.get(&id)`. -/
def AsgGraph.get (g : AsgGraph) (id : Nat) : Option AsgNode :=
  alookup g.nodes id

end Front

-- ======================================================================
-- Embedding of `type_checker_l1` (types, unification, Algorithm W)
-- ======================================================================

namespace L1

/-- `type_checker_l1::types::Type` (named `Ty` here because `Type` is a
Lean sort). -/
inductive Ty where
  | Int
  | Bool
  | Function (a b : Ty)
  | Ref (t : Ty)
  | Var (id : Nat)
deriving DecidableEq, Repr

/-- `TypeScheme`: quantified unification-variable ids plus a body. -/
structure TypeScheme where
  vars : List Nat
  body : Ty
deriving DecidableEq, Repr

/-- `SubstitutionMap = HashMap<u64, Type>`. -/
abbrev Subst := List (Nat × Ty)

/-- `Type::apply`: one-step application of a substitution (a variable's
image is not substituted again). -/
def Ty.apply (t : Ty) (subst : Subst) : Ty :=
  match t with
  | .Var id => (alookup subst id).getD (.Var id)
  | .Function a b => .Function (a.apply subst) (b.apply subst)
  | .Ref t1 => .Ref (t1.apply subst)
  | base => base

/-- `type_checker_l1::errors::TypeError`. -/
inductive TypeError where
  | UnificationFail (t1 t2 : Ty)
  | OccursCheck
  | UndefinedVariable (node_id : Nat)
  | ApplicationMismatch (node_id : Nat)
  | Unimplemented
deriving DecidableEq, Repr

/-- `occurs_check`: does `var` occur in `t`, chasing bindings of the
current substitution?  The chase can loop on a cyclic substitution (the
Rust original would overflow the stack), hence the fuel; `none` is the
out-of-fuel answer. -/
def occursCheck : Nat → Nat → Ty → Subst → Option Bool
  | 0, _, _, _ => none
  | f + 1, var, t, subst =>
    match t with
    | .Var v =>
      if v = var then some true
      else
        match alookup subst v with
        | some t2 => occursCheck f var t2 subst
        | none => some false
    | .Function a b =>
      match occursCheck f var a subst with
      | none => none
      | some true => some true
      | some false => occursCheck f var b subst
    | .Ref t1 => occursCheck f var t1 subst
    | _ => some false

/-- `bind_var`: no-op when binding a variable to itself; otherwise occurs
check, then insert — overwriting any existing binding of `var`. -/
def bindVar (ofuel : Nat) (var : Nat) (t : Ty) (subst : Subst) : Res TypeError Subst :=
  if t = Ty.Var var then .ok subst
  else
    match occursCheck ofuel var t subst with
    | none => .fuel
    | some true => .err .OccursCheck
    | some false => .ok (hmInsert subst var t)

/-- `unify`: Robinson unification over the mutable substitution, returning
the updated substitution.  `ofuel` bounds only the occurs-check chase. -/
def unify (ofuel : Nat) : Ty → Ty → Subst → Res TypeError Subst
  | .Int, .Int, subst => .ok subst
  | .Bool, .Bool, subst => .ok subst
  | .Ref a, .Ref b, subst => unify ofuel a b subst
  | .Function a1 b1, .Function a2 b2, subst =>
    (unify ofuel a1 a2 subst).bind (unify ofuel b1 b2)
  | .Var v, t, subst => bindVar ofuel v t subst
  | t, .Var v, subst => bindVar ofuel v t subst
  | t1, t2, _ => .err (.UnificationFail t1 t2)

/-- `TypingContext`: binder node id → type scheme. -/
abbrev TypingContext := List (Nat × TypeScheme)

/-- `instantiate`: fresh unification variable for each quantified id, then
apply.  Returns the type and the advanced fresh counter. -/
def instantiate (ts : TypeScheme) (fresh : Nat) : Ty × Nat :=
  let st := ts.vars.foldl
    (fun (st : Subst × Nat) v => (hmInsert st.1 v (Ty.Var st.2), st.2 + 1))
    ([], fresh)
  (ts.body.apply st.1, st.2)

/-- `TypingContext::lookup`: instantiate the scheme of a binder id, or
`UndefinedVariable` carrying the looked-up id. -/
def ctxLookup (ctx : TypingContext) (node_id : Nat) (fresh : Nat) :
    Res TypeError (Ty × Nat) :=
  match alookup ctx node_id with
  | some ts => .ok (instantiate ts fresh)
  | none => .err (.UndefinedVariable node_id)

/-- `infer`: Algorithm W over the graph.  The context is read-only (the
`TermLambda` arm extends a local clone); the substitution and fresh
counter are threaded through.  Fuel bounds the recursion depth (the graph
may be cyclic) and is also passed to `unify` as occurs-check fuel. -/
def infer : Nat → TypingContext → Nat → Front.AsgGraph → Subst → Nat →
    Res TypeError (Ty × Subst × Nat)
  | 0, _, _, _, _, _ => .fuel
  | fuel + 1, ctx, node_id, graph, subst, fresh =>
    match graph.get node_id with
    | none => .err (.UndefinedVariable node_id)
    | some node =>
      match node.type_ with
      | .LiteralInt => .ok (.Int, subst, fresh)
      | .LiteralBool => .ok (.Bool, subst, fresh)
      | .TermVariable =>
        match node.term_variable with
        | some var =>
          (ctxLookup ctx var.definition_node_id fresh).bind fun (t, fresh') =>
            .ok (t, subst, fresh')
        | none => .err (.UndefinedVariable node_id)
      | .TermLambda =>
        match node.term_lambda with
        | some lambda =>
          let param_ty := Ty.Var fresh
          let new_ctx := hmInsert ctx lambda.binder_variable_node_id
            { vars := [], body := param_ty }
          (infer fuel new_ctx lambda.body_node_id graph subst (fresh + 1)).bind
            fun (body_ty, subst', fresh') =>
              .ok (.Function param_ty body_ty, subst', fresh')
        | none => .err .Unimplemented
      | .TermApplication =>
        match node.term_application with
        | some app =>
          (infer fuel ctx app.function_node_id graph subst fresh).bind
            fun (func_ty, s1, f1) =>
          (infer fuel ctx app.argument_node_id graph s1 f1).bind
            fun (arg_ty, s2, f2) =>
          let res_ty := Ty.Var f2
          (unify (fuel + 1) func_ty (.Function arg_ty res_ty) s2).bind fun s3 =>
            .ok (res_ty.apply s3, s3, f2 + 1)
        | none => .err .Unimplemented
      | .PrimitiveOp =>
        match node.primitive_op with
        | some op =>
          if op.op_name = "+" ∨ op.op_name = "-" ∨ op.op_name = "*" ∨ op.op_name = "/" then
            match op.argument_node_ids with
            | [lhs, rhs] =>
              (infer fuel ctx lhs graph subst fresh).bind fun (lhs_ty, s1, f1) =>
              (infer fuel ctx rhs graph s1 f1).bind fun (rhs_ty, s2, f2) =>
              (unify (fuel + 1) lhs_ty .Int s2).bind fun s3 =>
              (unify (fuel + 1) rhs_ty .Int s3).bind fun s4 =>
                .ok (.Int, s4, f2)
            | _ => .err .Unimplemented
          else .err .Unimplemented
        | none => .err .Unimplemented
      | .TermRef =>
        match node.term_ref with
        | some r =>
          (infer fuel ctx r.init_value_node_id graph subst fresh).bind
            fun (val_ty, s1, f1) => .ok (.Ref val_ty, s1, f1)
        | none => .err .Unimplemented
      | .TermDeref =>
        match node.term_deref with
        | some d =>
          (infer fuel ctx d.ref_node_id graph subst fresh).bind
            fun (ref_ty, s1, f1) =>
              match ref_ty with
              | .Ref inner => .ok (inner, s1, f1)
              | _ => .err (.ApplicationMismatch node_id)
        | none => .err .Unimplemented
      | .TermAssign =>
        match node.term_assign with
        | some assign =>
          (infer fuel ctx assign.ref_node_id graph subst fresh).bind
            fun (ref_ty, s1, f1) =>
          (infer fuel ctx assign.value_node_id graph s1 f1).bind
            fun (val_ty, s2, f2) =>
              match ref_ty with
              | .Ref inner =>
                -- assignment returns bool (source comment: "or unit, but
                -- defaulting to bool for now")
                (unify (fuel + 1) inner val_ty s2).bind fun s3 =>
                  .ok (.Bool, s3, f2)
              | _ => .err (.ApplicationMismatch node_id)
        | none => .err .Unimplemented
      | _ => .err .Unimplemented

/-- `all_child_node_ids` (traversal helper trait in `lib.rs`). -/
def allChildNodeIds (node : Front.AsgNode) : List Nat :=
  match node.type_ with
  | .TermVariable =>
    match node.term_variable with
    | some v => [v.definition_node_id]
    | none => []
  | .TermLambda =>
    match node.term_lambda with
    | some lambda =>
      [lambda.binder_variable_node_id, lambda.body_node_id] ++
      (match lambda.type_annotation_id with
       | some tid => [tid]
       | none => [])
    | none => []
  | .TermApplication =>
    match node.term_application with
    | some app => [app.function_node_id, app.argument_node_id]
    | none => []
  | .TermRef =>
    match node.term_ref with
    | some r => [r.init_value_node_id]
    | none => []
  | .TermDeref =>
    match node.term_deref with
    | some r => [r.ref_node_id]
    | none => []
  | .TermAssign =>
    match node.term_assign with
    | some r => [r.ref_node_id, r.value_node_id]
    | none => []
  | .PrimitiveOp =>
    match node.primitive_op with
    | some op => op.argument_node_ids
    | none => []
  | _ => []

/-- The `while let Some(nid) = stack.pop()` loop of
`check_and_annotate_graph`.  The stack's top is the list head (`Vec::push`
appends, so children are pushed in order and popped in reverse).  The
typing context stays the empty top-level context for every popped node,
exactly as in the source. -/
def checkLoop : Nat → TypingContext → Subst → Nat → Front.AsgGraph →
    List Nat → List Nat → List (Nat × Ty) → Res TypeError (List (Nat × Ty))
  | 0, _, _, _, _, _, _, _ => .fuel
  | _ + 1, _, _, _, _, [], _, inferred => .ok inferred
  | fuel + 1, ctx, subst, fresh, graph, nid :: stack, visited, inferred =>
    if nid ∈ visited then
      checkLoop fuel ctx subst fresh graph stack visited inferred
    else
      match infer (fuel + 1) ctx nid graph subst fresh with
      | .fuel => .fuel
      | .err e => .err e
      | .ok (ty, subst', fresh') =>
        let inferred' := hmInsert inferred nid ty
        let stack' :=
          match graph.get nid with
          | some node => (allChildNodeIds node).foldl (fun s c => c :: s) stack
          | none => stack
        checkLoop fuel ctx subst' fresh' graph stack' (nid :: visited) inferred'

/-- `check_and_annotate_graph`: DFS from the root, inferring a type for
every reachable node with the shared top-level context, substitution and
fresh counter; first error aborts. -/
def check_and_annotate_graph (fuel : Nat) (graph : Front.AsgGraph) :
    Res TypeError (List (Nat × Ty)) :=
  checkLoop fuel [] [] 0 graph [graph.root_node_id] [] []

end L1

-- ======================================================================
-- Embedding of `synapse_cli::linter` (the Level 0 structural validator)
-- ======================================================================

namespace Linter

/-- `LintErrorCode::as_str`. -/
def integrityCode : String := "L001"

def scopeCode : String := "L002"

def applicationCode : String := "L003"

def assignmentCode : String := "L004"

/-- The linter's own `SourceLocation` record (field-for-field copy of the
graph's metadata location). -/
structure SourceLocation where
  filename : Option String
  start_line : Nat
  start_col : Nat
  end_line : Nat
  end_col : Nat
deriving DecidableEq, Repr

structure LintError where
  code : String
  message : String
  node_id : Nat
  location : Option SourceLocation
deriving DecidableEq, Repr

/-- `get_source_location`: scan the node map for a `Metadata` node
carrying a source location and return the first one found — without
checking the metadata's target (the source comments this as a
simplification: "you'd check if this metadata applies to the node_id. For
now, we'll just return the first source location we find"). -/
def get_source_location (graph : Front.AsgGraph) (_node_id : Nat) :
    Option SourceLocation :=
  (graph.nodes.findSome? fun p =>
    match p.2.type_ with
    | .Metadata =>
      match p.2.metadata with
      | some metadata =>
        match metadata.source_location with
        | some loc =>
          some { filename := loc.filename, start_line := loc.start_line,
                 start_col := loc.start_col, end_line := loc.end_line,
                 end_col := loc.end_col }
        | none => none
      | none => none
    | _ => none)

/-- Does the id resolve in the node map (`existing_nodes.contains`)? -/
def containsNode (graph : Front.AsgGraph) (id : Nat) : Bool :=
  (alookup graph.nodes id).isSome

/-- One field check of `check_node_references`: an `INTEGRITY` error when
the referenced id does not resolve. -/
def refCheck (graph : Front.AsgGraph) (node_id : Nat) (target : Nat)
    (message : String) : List LintError :=
  if containsNode graph target then []
  else [{ code := integrityCode, message := message ++ toString target,
          node_id := node_id, location := get_source_location graph node_id }]

/-- The per-node body of `check_node_references`. -/
def nodeRefErrors (graph : Front.AsgGraph) (node_id : Nat)
    (node : Front.AsgNode) : List LintError :=
  match node.type_ with
  | .TermVariable =>
    match node.term_variable with
    | some term_var =>
      refCheck graph node_id term_var.definition_node_id
        "Variable references non-existent definition node: "
    | none => []
  | .TermLambda =>
    match node.term_lambda with
    | some lambda =>
      refCheck graph node_id lambda.binder_variable_node_id
        "Lambda references non-existent binder variable: " ++
      refCheck graph node_id lambda.body_node_id
        "Lambda references non-existent body node: " ++
      (match lambda.type_annotation_id with
       | some type_id =>
         refCheck graph node_id type_id
           "Lambda references non-existent type annotation: "
       | none => [])
    | none => []
  | .TermApplication =>
    match node.term_application with
    | some app =>
      refCheck graph node_id app.function_node_id
        "Application references non-existent function node: " ++
      refCheck graph node_id app.argument_node_id
        "Application references non-existent argument node: "
    | none => []
  | .TermRef =>
    match node.term_ref with
    | some term_ref =>
      refCheck graph node_id term_ref.init_value_node_id
        "Ref references non-existent init value node: "
    | none => []
  | .TermDeref =>
    match node.term_deref with
    | some term_deref =>
      refCheck graph node_id term_deref.ref_node_id
        "Deref references non-existent ref node: "
    | none => []
  | .TermAssign =>
    match node.term_assign with
    | some term_assign =>
      refCheck graph node_id term_assign.ref_node_id
        "Assignment references non-existent ref node: " ++
      refCheck graph node_id term_assign.value_node_id
        "Assignment references non-existent value node: "
    | none => []
  | _ => []

/-- `check_node_references`: every node's reference fields, in map
iteration order.  `PrimitiveOp`, `EffectPerform` and `Metadata` fall into
the source's catch-all arm and are not checked. -/
def check_node_references (graph : Front.AsgGraph) : List LintError :=
  graph.nodes.flatMap fun p => nodeRefErrors graph p.1 p.2

/-- The per-node body of `check_variable_scopes` (the `scope_map` the
source builds first is never read afterwards and contributes nothing). -/
def nodeScopeErrors (graph : Front.AsgGraph) (node_id : Nat)
    (node : Front.AsgNode) : List LintError :=
  match node.type_ with
  | .TermVariable =>
    match node.term_variable with
    | some var =>
      match alookup graph.nodes var.definition_node_id with
      | some def_node =>
        match def_node.type_ with
        | .TermLambda => []
        | other =>
          [{ code := scopeCode,
             message := "Variable refers to non-binder node of type: " ++
               other.debugStr,
             node_id := node_id,
             location := get_source_location graph node_id }]
      | none =>
        [{ code := scopeCode,
           message := "Variable refers to non-existent definition node: " ++
             toString var.definition_node_id,
           node_id := node_id,
           location := get_source_location graph node_id }]
    | none => []
  | _ => []

def check_variable_scopes (graph : Front.AsgGraph) : List LintError :=
  graph.nodes.flatMap fun p => nodeScopeErrors graph p.1 p.2

/-- The per-node body of `check_simple_type_errors`. -/
def nodeSimpleTypeErrors (graph : Front.AsgGraph) (node_id : Nat)
    (node : Front.AsgNode) : List LintError :=
  match node.type_ with
  | .TermApplication =>
    match node.term_application with
    | some app =>
      match alookup graph.nodes app.function_node_id with
      | some func_node =>
        match func_node.type_ with
        | .TermLambda => []
        | .TermVariable => []
        | .TermApplication => []
        | other =>
          [{ code := applicationCode,
             message := "Applying non-function node of type: " ++ other.debugStr,
             node_id := node_id,
             location := get_source_location graph node_id }]
      | none => []
    | none => []
  | .TermAssign =>
    match node.term_assign with
    | some assign =>
      match alookup graph.nodes assign.ref_node_id with
      | some target_node =>
        match target_node.type_ with
        | .TermRef => []
        | .TermDeref => []
        | .TermVariable => []
        | other =>
          [{ code := assignmentCode,
             message := "Assigning to non-reference node of type: " ++
               other.debugStr,
             node_id := node_id,
             location := get_source_location graph node_id }]
      | none => []
    | none => []
  | _ => []

def check_simple_type_errors (graph : Front.AsgGraph) : List LintError :=
  graph.nodes.flatMap fun p => nodeSimpleTypeErrors graph p.1 p.2

/-- `lint_graph`: the three passes push into one vector in order. -/
def lint_graph (graph : Front.AsgGraph) : List LintError :=
  check_node_references graph ++ check_variable_scopes graph ++
  check_simple_type_errors graph

end Linter

-- ======================================================================
-- Embedding of `type_checker_l2` (the extended checker entry point)
-- ======================================================================

namespace L2

/-- `type_checker_l2::types::Type` (System F extension). -/
inductive Ty where
  | Int
  | Bool
  | Function (a b : Ty)
  | Ref (t : Ty)
  | Var (id : Nat)
  | ForAll (vars : List Nat) (body : Ty)
  | ADT (name : String) (args : List Ty)

/-- `type_checker_l2`'s `TypeError`.  Modelled from the spec: the crate's
`errors.rs` is not under `src/` (only `mod errors;` and its uses are); §7
lists the type errors `UnificationFail(t1, t2)`, `OccursCheck`,
`UndefinedVariable(node)`, `ApplicationMismatch(node)`,
`NonExhaustiveMatch`, `ConstructorArityMismatch`, `Unimplemented` and the
effect error `EffectNotAllowed(label)`. -/
inductive TypeError where
  | UnificationFail (t1 t2 : Ty)
  | OccursCheck
  | UndefinedVariable (node_id : Nat)
  | ApplicationMismatch (node_id : Nat)
  | NonExhaustiveMatch (adt_name : String) (missing : List String)
  | ConstructorArityMismatch
  | EffectNotAllowed (label : String)
  | Unimplemented

/-- `check_and_annotate_graph_v2` (`lib.rs` lines 16–43): loops over the
node map, but every match arm — including the `effect_meta` read — is a
TODO stub with no effect, so the loop contributes nothing and the function
unconditionally returns `Ok(())`.  It takes no allowed-effects argument. -/
def check_and_annotate_graph_v2 (graph : Front.AsgGraph) :
    Except TypeError Unit :=
  let _ := graph.nodes.foldl
    (fun (acc : Unit) p =>
      let _ := p.2.effect_meta.map (fun em => em.effect_tags)
      acc) ()
  Except.ok ()

end L2

-- ======================================================================
-- Embedding of `upir_core` (IR structures) and `asg_to_upir` (lowering)
-- ======================================================================

namespace Upir

structure ValueId where
  val : Nat
deriving DecidableEq, Repr

structure BlockId where
  val : Nat
deriving DecidableEq, Repr

structure TypeId where
  val : Nat
deriving DecidableEq, Repr

structure ValueDef where
  id : ValueId
  ty : TypeId
deriving DecidableEq, Repr

structure BlockArgument where
  value_def : ValueDef
  block_id : BlockId
  index : Nat
deriving DecidableEq, Repr

inductive Attribute where
  | String (s : String)
  | Integer (i : Int)
  | Bool (b : Bool)
  | Type (t : TypeId)
deriving DecidableEq, Repr

/-- `Operation`, `Region` and `Block` are mutually recursive in the source
(`Operation.regions : Vec<Region>`); attributes are a string-keyed map. -/
inductive Operation where
  | mk (name : String) (operands : List ValueId) (results : List ValueDef)
      (attributes : List (String × Attribute)) (regions : List (List (BlockId × List BlockArgument × List Operation)))

/-- A `Block`: id, typed arguments, operations. -/
def Block := BlockId × List BlockArgument × List Operation

/-- A `Region` is its list of blocks. -/
def Region := List Block

def Operation.name : Operation → String
  | .mk n _ _ _ _ => n

def Operation.operands : Operation → List ValueId
  | .mk _ o _ _ _ => o

def Operation.results : Operation → List ValueDef
  | .mk _ _ r _ _ => r

structure FunctionSignature where
  arg_types : List TypeId
  result_types : List TypeId
deriving DecidableEq, Repr

structure Function where
  name : String
  signature : FunctionSignature
  regions : List Region

structure Module where
  name : String
  functions : List Function

end Upir

namespace Lowering

/-- `asg_to_upir::error::LoweringError`. -/
inductive LoweringError where
  | NodeNotLowerable (node_id : Nat)
  | MissingType (node_id : Nat)
  | Unimplemented (msg : String)
deriving DecidableEq, Repr

/-- `TypeCheckMap = HashMap<u64, Type>` (the L1 checker's output). -/
abbrev TypeCheckMap := List (Nat × L1.Ty)

/-- The mutable part of `LoweringContext` (the graph and type map are
read-only and passed separately). -/
structure Ctx where
  upir_module : Upir.Module
  ir_value_map : List (Nat × Upir.ValueId)
  next_value : Nat
  next_block : Nat
  type_id_map : List (L1.Ty × Upir.TypeId)
  next_type : Nat

/-- `LoweringContext::new`. -/
def Ctx.new : Ctx :=
  { upir_module := { name := "main", functions := [] },
    ir_value_map := [], next_value := 0, next_block := 0,
    type_id_map := [], next_type := 1 }

def Ctx.nextValue (ctx : Ctx) : Upir.ValueId × Ctx :=
  (⟨ctx.next_value⟩, { ctx with next_value := ctx.next_value + 1 })

def Ctx.nextBlock (ctx : Ctx) : Upir.BlockId × Ctx :=
  (⟨ctx.next_block⟩, { ctx with next_block := ctx.next_block + 1 })

/-- `resolve_type`: intern an L1 type, allocating a fresh `TypeId` on a
miss. -/
def Ctx.resolveType (ctx : Ctx) (ty : L1.Ty) : Upir.TypeId × Ctx :=
  match alookup ctx.type_id_map ty with
  | some id => (id, ctx)
  | none =>
    let new_id : Upir.TypeId := ⟨ctx.next_type⟩
    (new_id,
     { ctx with next_type := ctx.next_type + 1,
                type_id_map := hmInsert ctx.type_id_map ty new_id })

/-- `lower_expr`: recursively lower an expression node, returning its SSA
value, the operations emitted for it, and the updated context.  Fueled:
on a cyclic graph the Rust original recurses without bound. -/
def lower_expr : Nat → Front.AsgGraph → TypeCheckMap → Ctx → Nat →
    Res LoweringError (Upir.ValueId × List Upir.Operation × Ctx)
  | 0, _, _, _, _ => .fuel
  | fuel + 1, graph, type_map, ctx, node_id =>
    match graph.get node_id with
    | none => .err (.NodeNotLowerable node_id)
    | some node =>
      match alookup type_map node_id with
      | none => .err (.MissingType node_id)
      | some ty =>
        let (typid, ctx) := ctx.resolveType ty
        match node.type_ with
        | .TermVariable =>
          match alookup ctx.ir_value_map node_id with
          | some val_id => .ok (val_id, [], ctx)
          | none =>
            match node.term_variable with
            | some tv =>
              match alookup ctx.ir_value_map tv.definition_node_id with
              | some val_id =>
                .ok (val_id, [],
                  { ctx with ir_value_map := hmInsert ctx.ir_value_map node_id val_id })
              | none => .err (.NodeNotLowerable node_id)
            | none => .err (.NodeNotLowerable node_id)
        | .LiteralInt =>
          let (val_id, ctx) := ctx.nextValue
          let ctx := { ctx with ir_value_map := hmInsert ctx.ir_value_map node_id val_id }
          let op : Upir.Operation := .mk "core.constant" []
            [{ id := val_id, ty := typid }]
            (hmInsert [] "value" (.Integer (node.literal_int.getD 0))) []
          .ok (val_id, [op], ctx)
        | .LiteralBool =>
          let (val_id, ctx) := ctx.nextValue
          let ctx := { ctx with ir_value_map := hmInsert ctx.ir_value_map node_id val_id }
          let op : Upir.Operation := .mk "core.constant" []
            [{ id := val_id, ty := typid }]
            (hmInsert [] "value" (.Bool (node.literal_bool.getD false))) []
          .ok (val_id, [op], ctx)
        | .TermApplication =>
          match node.term_application with
          | some app =>
            (lower_expr fuel graph type_map ctx app.function_node_id).bind
              fun (fn_val, fn_ops, ctx) =>
            (lower_expr fuel graph type_map ctx app.argument_node_id).bind
              fun (arg_val, arg_ops, ctx) =>
            let (val_id, ctx) := ctx.nextValue
            let ctx := { ctx with ir_value_map := hmInsert ctx.ir_value_map node_id val_id }
            let call_op : Upir.Operation := .mk "func.call" [fn_val, arg_val]
              [{ id := val_id, ty := typid }] [] []
            .ok (val_id, fn_ops ++ arg_ops ++ [call_op], ctx)
          | none => .err (.Unimplemented "term application missing")
        | .PrimitiveOp =>
          match node.primitive_op with
          | some op =>
            (op.argument_node_ids.foldlM
              (fun (st : List Upir.Operation × List Upir.ValueId × Ctx) arg_node =>
                (lower_expr fuel graph type_map st.2.2 arg_node).bind
                  fun (arg_val, ops, ctx) =>
                    Res.ok (st.1 ++ ops, st.2.1 ++ [arg_val], ctx))
              ([], [], ctx)).bind
              fun (result_ops, arg_vals, ctx) =>
            let (val_id, ctx) := ctx.nextValue
            let ctx := { ctx with ir_value_map := hmInsert ctx.ir_value_map node_id val_id }
            let ir_op : Upir.Operation := .mk ("core." ++ op.op_name) arg_vals
              [{ id := val_id, ty := typid }] [] []
            .ok (val_id, result_ops ++ [ir_op], ctx)
          | none => .err (.Unimplemented "primitive op")
        | .TermRef =>
          match node.term_ref with
          | some term_ref =>
            (lower_expr fuel graph type_map ctx term_ref.init_value_node_id).bind
              fun (val, ops, ctx) =>
            let (ref_id, ctx) := ctx.nextValue
            let alloc_op : Upir.Operation := .mk "mem.alloc" []
              [{ id := ref_id, ty := typid }] [] []
            let store_op : Upir.Operation := .mk "mem.store" [ref_id, val] [] [] []
            let ctx := { ctx with ir_value_map := hmInsert ctx.ir_value_map node_id ref_id }
            .ok (ref_id, ops ++ [alloc_op, store_op], ctx)
          | none => .err (.Unimplemented "term ref")
        | .TermDeref =>
          match node.term_deref with
          | some deref =>
            (lower_expr fuel graph type_map ctx deref.ref_node_id).bind
              fun (ptr_val, ops, ctx) =>
            let (result_id, ctx) := ctx.nextValue
            let load : Upir.Operation := .mk "mem.load" [ptr_val]
              [{ id := result_id, ty := typid }] [] []
            let ctx := { ctx with ir_value_map := hmInsert ctx.ir_value_map node_id result_id }
            .ok (result_id, ops ++ [load], ctx)
          | none => .err (.Unimplemented "term deref")
        | .TermAssign =>
          match node.term_assign with
          | some assign =>
            (lower_expr fuel graph type_map ctx assign.ref_node_id).bind
              fun (ref_val, ref_ops, ctx) =>
            (lower_expr fuel graph type_map ctx assign.value_node_id).bind
              fun (value_val, val_ops, ctx) =>
            let assign_op : Upir.Operation := .mk "mem.store" [ref_val, value_val] [] [] []
            let (result_id, ctx) := ctx.nextValue
            let dummy_true : Upir.Operation := .mk "core.constant" []
              [{ id := result_id, ty := typid }]
              (hmInsert [] "value" (.Bool true)) []
            let ctx := { ctx with ir_value_map := hmInsert ctx.ir_value_map node_id result_id }
            .ok (result_id, ref_ops ++ val_ops ++ [assign_op, dummy_true], ctx)
          | none => .err (.Unimplemented "term assign")
        | _ => .err (.NodeNotLowerable node_id)

/-- `lower_lambda`: lower a root lambda into a UPIR function with one
region and one entry block whose single argument is the binder. -/
def lower_lambda (fuel : Nat) (graph : Front.AsgGraph)
    (type_map : TypeCheckMap) (ctx : Ctx) (node_id : Nat) :
    Res LoweringError (Upir.Function × Ctx) :=
  match graph.get node_id with
  | none => .err (.NodeNotLowerable node_id)
  | some node =>
    match node.term_lambda with
    | none => .err (.NodeNotLowerable node_id)
    | some lambda =>
      let binder_id := lambda.binder_variable_node_id
      match alookup type_map binder_id with
      | none => .err (.MissingType binder_id)
      | some param_ty_hm =>
        let (param_ty, ctx) := ctx.resolveType param_ty_hm
        match alookup type_map lambda.body_node_id with
        | none => .err (.MissingType lambda.body_node_id)
        | some res_ty_hm =>
          let (res_ty, ctx) := ctx.resolveType res_ty_hm
          let fid := "lambda_" ++ toString node_id
          let (blockid, ctx) := ctx.nextBlock
          let (param_val_id, ctx) := ctx.nextValue
          let ctx := { ctx with ir_value_map := hmInsert ctx.ir_value_map binder_id param_val_id }
          let block_arg : Upir.BlockArgument :=
            { value_def := { id := param_val_id, ty := param_ty },
              block_id := blockid, index := 0 }
          (lower_expr fuel graph type_map ctx lambda.body_node_id).bind
            fun (ret_val_id, ops, ctx) =>
          let ret_op : Upir.Operation := .mk "func.return" [ret_val_id] [] [] []
          let block : Upir.Block := (blockid, [block_arg], ops ++ [ret_op])
          let region : Upir.Region := [block]
          .ok ({ name := fid,
                 signature := { arg_types := [param_ty], result_types := [res_ty] },
                 regions := [region] }, ctx)

/-- `lower_graph_to_upir`: if the root id does not resolve the (empty)
module is returned as success; a root lambda is lowered and pushed; any
other root kind is `NodeNotLowerable(root)`. -/
def lower_graph_to_upir (fuel : Nat) (graph : Front.AsgGraph)
    (types : TypeCheckMap) : Res LoweringError Upir.Module :=
  let ctx := Ctx.new
  let root := graph.root_node_id
  match graph.get root with
  | none => .ok ctx.upir_module
  | some node =>
    match node.type_ with
    | .TermLambda =>
      (lower_lambda fuel graph types ctx root).bind fun (fn, ctx) =>
        .ok { ctx.upir_module with
              functions := ctx.upir_module.functions ++ [fn] }
    | _ => .err (.NodeNotLowerable root)

end Lowering

-- ======================================================================
-- Claim-support definitions: operation traces, checked reference fields,
-- and the concrete graphs the claims are evaluated on.
-- ======================================================================

namespace AsgCore

/-- A graph-store operation: the claims about id allocation quantify over
graphs produced only by insertions and removals. -/
inductive GOp where
  | insert (node_type : Nat) (content : Content)
  | remove (node_id : Nat)

/-- Run a list of operations against a graph, collecting the ids returned
by the insertions in order. -/
def runOps : AsgGraph → List GOp → AsgGraph × List Nat
  | g, [] => (g, [])
  | g, .insert t c :: ops =>
    let (id, g') := g.add_node t c
    let (gf, ids) := runOps g' ops
    (gf, id :: ids)
  | g, .remove id :: ops => runOps (g.remove_node id) ops

/-- The number of insertions in a trace. -/
def countInserts (ops : List GOp) : Nat :=
  ops.countP fun op =>
    match op with
    | .insert _ _ => true
    | .remove _ => false

end AsgCore

namespace Linter

/-- The reference fields `check_node_references` actually checks: variable
definitions, lambda binder/body/annotation, application function and
argument, ref initialiser, deref target, and assignment target and value.
(`PrimitiveOp` argument ids, `EffectPerform` value ids and `Metadata`
targets fall into the source's catch-all arm and are not checked.) -/
def checkedRefIds (node : Front.AsgNode) : List Nat :=
  match node.type_ with
  | .TermVariable =>
    match node.term_variable with
    | some v => [v.definition_node_id]
    | none => []
  | .TermLambda =>
    match node.term_lambda with
    | some l =>
      [l.binder_variable_node_id, l.body_node_id] ++ l.type_annotation_id.toList
    | none => []
  | .TermApplication =>
    match node.term_application with
    | some a => [a.function_node_id, a.argument_node_id]
    | none => []
  | .TermRef =>
    match node.term_ref with
    | some r => [r.init_value_node_id]
    | none => []
  | .TermDeref =>
    match node.term_deref with
    | some d => [d.ref_node_id]
    | none => []
  | .TermAssign =>
    match node.term_assign with
    | some a => [a.ref_node_id, a.value_node_id]
    | none => []
  | _ => []

end Linter

/-- Scenario S1 — the identity graph `λx:Int. x`: node 3 is the root
`Lambda` (binder node 1, body node 2, `Int` type annotation node 4); the
body variable back-points at the binder; the binder back-points at the
lambda. -/
def gS1 : Front.AsgGraph :=
  { nodes :=
      [(1, { type_ := .TermVariable,
             term_variable := some { name := "x", definition_node_id := 3 } }),
       (2, { type_ := .TermVariable,
             term_variable := some { name := "x", definition_node_id := 1 } }),
       (3, { type_ := .TermLambda,
             term_lambda := some { binder_variable_node_id := 1, body_node_id := 2,
                                   type_annotation_id := some 4 } }),
       (4, { type_ := .TypeNode })],
    root_node_id := 3 }

/-- A graph whose only node is a `PrimitiveOp` whose argument list
mentions the unresolvable id 999. -/
def gPrimDangling : Front.AsgGraph :=
  { nodes :=
      [(1, { type_ := .PrimitiveOp,
             primitive_op := some { op_name := "+", argument_node_ids := [999] } })],
    root_node_id := 1 }

/-- A well-linked graph on which the linter reports nothing: a lambda
(node 2) whose binder and body are the variable node 1, which back-points
at the lambda. -/
def gClean : Front.AsgGraph :=
  { nodes :=
      [(1, { type_ := .TermVariable,
             term_variable := some { name := "x", definition_node_id := 2 } }),
       (2, { type_ := .TermLambda,
             term_lambda := some { binder_variable_node_id := 1, body_node_id := 1,
                                   type_annotation_id := none } })],
    root_node_id := 2 }

/-- The source location carried by the metadata node of `gMeta`. -/
def mLoc : Front.SourceLocation :=
  { filename := some "main.syn", start_line := 3, start_col := 5,
    end_line := 3, end_col := 9 }

/-- A graph with a dangling variable (node 1, definition 999) and a
`Metadata` node (node 2) whose target field is 7 — matching neither node —
but which carries a source location. -/
def gMeta : Front.AsgGraph :=
  { nodes :=
      [(1, { type_ := .TermVariable,
             term_variable := some { name := "x", definition_node_id := 999 } }),
       (2, { type_ := .Metadata,
             metadata := some { node_id := 7, source_location := some mLoc } })],
    root_node_id := 1 }

/-- The location record the linter builds from `mLoc`. -/
def mLocOut : Linter.SourceLocation :=
  { filename := some "main.syn", start_line := 3, start_col := 5,
    end_line := 3, end_col := 9 }

/-- Scenario S4 — a graph whose root performs the effect `"IO"` (node 1,
with its effect tag recorded in `effect_meta`), over the literal node 2. -/
def gS4 : Front.AsgGraph :=
  { nodes :=
      [(1, { type_ := .EffectPerform,
             effect_meta := some { effect_tags := ["IO"] } }),
       (2, { type_ := .LiteralInt, literal_int := some 42 })],
    root_node_id := 1 }

/-- An assignment graph: node 4 assigns literal node 3 into the reference
node 2 built from literal node 1. -/
def gAssign : Front.AsgGraph :=
  { nodes :=
      [(1, { type_ := .LiteralInt, literal_int := some 0 }),
       (2, { type_ := .TermRef, term_ref := some { init_value_node_id := 1 } }),
       (3, { type_ := .LiteralInt, literal_int := some 1 }),
       (4, { type_ := .TermAssign,
             term_assign := some { ref_node_id := 2, value_node_id := 3 } })],
    root_node_id := 4 }

/-- A root lambda (node 1) whose body points back at the root itself; its
binder is node 2. -/
def gCycLambda : Front.AsgGraph :=
  { nodes :=
      [(1, { type_ := .TermLambda,
             term_lambda := some { binder_variable_node_id := 2, body_node_id := 1,
                                   type_annotation_id := none } }),
       (2, { type_ := .TermVariable,
             term_variable := some { name := "x", definition_node_id := 1 } })],
    root_node_id := 1 }

/-- A type map giving both nodes of `gCycLambda` the type `Int`. -/
def tmCycLambda : Lowering.TypeCheckMap :=
  [(1, .Int), (2, .Int)]

/-- A graph whose root id (5) does not resolve in the node map. -/
def gNoRoot : Front.AsgGraph :=
  { nodes := [(1, { type_ := .LiteralInt, literal_int := some 1 })],
    root_node_id := 5 }

/-- A graph whose root resolves to a non-lambda node. -/
def gIntRoot : Front.AsgGraph :=
  { nodes := [(1, { type_ := .LiteralInt, literal_int := some 1 })],
    root_node_id := 1 }

/-- A one-node `asg_core` graph (an integer literal at id 1, as root) used
to witness the serialization round-trip. -/
def gCore1 : AsgCore.AsgGraph :=
  { nodes := [(1, { node_id := 1, type_ := 4,
                    content := some (.LiteralInt { value := 5 }) })],
    next_id := 2,
    root_id := some 1 }

/-- A `PrimitiveOp` node with op name `"a"` (byte `0x61`) and one argument
id 1. -/
def nPrimA : AsgCore.AsgNode :=
  { node_id := 1, type_ := 6,
    content := some (.PrimitiveOp { op_name := [0x61], argument_node_ids := [1] }) }

/-- A `PrimitiveOp` node with the nine-byte op name
`"a\u{01}\u{00}\u{00}\u{00}\u{00}\u{00}\u{00}\u{00}"` (a valid UTF-8
string) and no arguments. -/
def nPrimB : AsgCore.AsgNode :=
  { node_id := 1, type_ := 6,
    content := some (.PrimitiveOp
      { op_name := [0x61, 1, 0, 0, 0, 0, 0, 0, 0], argument_node_ids := [] }) }

/-- A one-node graph holding `nPrimA` at id 1, rooted there. -/
def gPrimA : AsgCore.AsgGraph :=
  { nodes := [(1, nPrimA)], next_id := 2, root_id := some 1 }

/-- A one-node graph holding `nPrimB` at id 1, rooted there. -/
def gPrimB : AsgCore.AsgGraph :=
  { nodes := [(1, nPrimB)], next_id := 2, root_id := some 1 }

/-- A `TermVariable` `asg_core` node, for stating what the canonical
encoding determines. -/
def mkVarNode (node_id : Nat) (name : List Nat) (definition_node_id : Nat) :
    AsgCore.AsgNode :=
  { node_id := node_id, type_ := 1,
    content := some (.TermVariable
      { name := name, definition_node_id := definition_node_id }) }

-- ===== Theorems =====

-- Helper lemmas -------------------------------------------------------

/-- The little-endian 8-byte encoding is injective on `u64` values. -/
theorem u64le_inj {n m : Nat} (hn : n < 2 ^ 64) (hm : m < 2 ^ 64)
    (h : u64le n = u64le m) : n = m := by
  simp only [u64le, List.cons.injEq, and_true] at h
  omega

/-- A successful association-list lookup exhibits a member. -/
theorem alookup_mem {β : Type v} {l : List (Nat × β)} {k : Nat} {x : β}
    (h : alookup l k = some x) : (k, x) ∈ l := by
  induction l with
  | nil => simp [alookup] at h
  | cons p rest ih =>
    obtain ⟨a, b⟩ := p
    by_cases hk : a = k
    · simp only [alookup] at h
      rw [if_pos hk] at h
      cases h
      subst hk
      exact List.mem_cons_self _ _
    · simp only [alookup] at h
      rw [if_neg hk] at h
      exact List.mem_cons_of_mem _ (ih h)

/-- Filtering away a key that does not occur leaves the list unchanged. -/
theorem filter_ne_of_not_mem {β : Type v} (l : List (Nat × β)) (k : Nat)
    (h : ∀ p ∈ l, p.1 ≠ k) : l.filter (fun p => p.1 ≠ k) = l := by
  apply List.filter_eq_self.mpr
  intro a ha
  simpa using h a ha

/-- An empty `flatMap` means every element maps to the empty list. -/
theorem flatMap_eq_nil {α : Type u} {β : Type v} {l : List α} {f : α → List β}
    (h : l.flatMap f = []) : ∀ x ∈ l, f x = [] := by
  induction l with
  | nil => intro x hx; cases hx
  | cons a l ih =>
    intro x hx
    rw [List.flatMap_cons, List.append_eq_nil] at h
    rcases List.mem_cons.mp hx with rfl | hx
    · exact h.1
    · exact ih h.2 x hx

/-- Claim C4's byte-level collision: the two distinct `PrimitiveOp`
payloads of `nPrimA` and `nPrimB` share a canonical byte stream. -/
theorem canonical_collision :
    AsgCore.canonicalBytes nPrimA = AsgCore.canonicalBytes nPrimB := by
  decide

/-- The collision lifts to whole-graph digests for every digest function:
`gPrimA` and `gPrimB` differ only in that payload, yet hash alike. -/
theorem hash_graph_collision (H : List Nat → List Nat) :
    AsgCore.hash_graph H gPrimA = AsgCore.hash_graph H gPrimB := by
  have hb : AsgCore.hash_node H nPrimA = AsgCore.hash_node H nPrimB := by
    simp [AsgCore.hash_node, AsgCore.canonicalize_node, canonical_collision]
  simp [AsgCore.hash_graph, AsgCore.hashGraphStream, gPrimA, gPrimB, alookup, hb]

-- Claim theorems ------------------------------------------------------

/-- Claim C1: on the S1 identity graph `λx:Int. x`, the full type check
does not succeed with `Fn(Int, Int)` at the root: the DFS in
`check_and_annotate_graph` re-infers every reachable node from the empty
top-level context and aborts with `Unimplemented` when it reaches the
`TypeNode` annotation; moreover the root's own inference ignores the
annotation and yields `Fn(Var 0, Var 0)`. -/
theorem C1_identity_check_fails :
    L1.check_and_annotate_graph 20 gS1 = .err .Unimplemented ∧
    L1.infer 20 [] gS1.root_node_id gS1 [] 0 =
      .ok (.Function (.Var 0) (.Var 0), [], 1) :=
  ⟨rfl, rfl⟩

/-- Claim C2: unification is unsound as implemented — `bind_var`
overwrites an existing binding instead of resolving it, so after
`unify(Fn(v0, v0), Fn(v1, Int))` succeeds (final substitution `{v0 ↦
Int}`; the earlier `v0 ↦ v1` binding is lost), applying the substitution
to the two sides yields `Fn(Int, Int)` and `Fn(v1, Int)`, which differ. -/
theorem C2_unify_subst_unsound :
    L1.unify 8 (L1.Ty.Function (.Var 0) (.Var 0))
        (.Function (.Var 1) .Int) [] = .ok [(0, .Int)] ∧
    L1.Ty.apply (L1.Ty.Function (.Var 0) (.Var 0)) [(0, .Int)] =
      .Function .Int .Int ∧
    L1.Ty.apply (L1.Ty.Function (.Var 1) .Int) [(0, .Int)] =
      .Function (.Var 1) .Int ∧
    L1.Ty.Function .Int .Int ≠ L1.Ty.Function (.Var 1) .Int := by
  refine ⟨rfl, rfl, rfl, ?_⟩
  decide

/-- Claim C4 counterexample: two distinct `PrimitiveOp` payloads of the
same kind whose canonical node encodings — raw op-name bytes followed by
the little-endian argument ids — coincide, so replacing one payload by the
other leaves every digest unchanged. -/
theorem C4_canonical_not_injective :
    AsgCore.canonicalBytes nPrimA = AsgCore.canonicalBytes nPrimB ∧
    nPrimA.type_ = nPrimB.type_ ∧ nPrimA.content ≠ nPrimB.content := by
  refine ⟨canonical_collision, rfl, ?_⟩
  decide

/-- Claim C4 (amended): for kinds whose string field is followed only by
fixed-width fields the canonical encoding is injective — for
`TermVariable`, equal canonical byte streams force equal names and equal
definition ids. -/
theorem C4_termvariable_encoding_injective
    (i1 i2 : Nat) (name1 name2 : List Nat) (d1 d2 : Nat)
    (h1 : d1 < 2 ^ 64) (h2 : d2 < 2 ^ 64)
    (heq : AsgCore.canonicalBytes (mkVarNode i1 name1 d1) =
      AsgCore.canonicalBytes (mkVarNode i2 name2 d2)) :
    name1 = name2 ∧ d1 = d2 := by
  simp only [AsgCore.canonicalBytes, mkVarNode, List.append_assoc,
    List.singleton_append, List.cons.injEq, true_and] at heq
  have hcat := List.append_cancel_left heq
  have hlen : (u64le d1).length = (u64le d2).length := by simp [u64le]
  have hparts := List.append_inj' hcat hlen
  exact ⟨hparts.1, u64le_inj h1 h2 hparts.2⟩

/-- Witness for the amended C4 theorem at a concrete payload. -/
theorem C4_witness : ([120] : List Nat) = [120] ∧ (7 : Nat) = 7 :=
  C4_termvariable_encoding_injective 1 1 [120] [120] 7 7
    (by decide) (by decide) rfl

/-- Claim C6: `check_and_annotate_graph_v2` takes no allowed-effects set
and its effect handling is an empty stub, so it returns `Ok(())` on every
graph — in particular on the S4 graph performing the effect `"IO"` — and
never fails with `EffectNotAllowed`. -/
theorem C6_effect_check_is_stub :
    L2.check_and_annotate_graph_v2 gS4 = Except.ok () ∧
    ∀ g : Front.AsgGraph, L2.check_and_annotate_graph_v2 g = Except.ok () :=
  ⟨rfl, fun _ => rfl⟩

/-- Claim C7 counterexample: on the concrete well-typed assignment graph
(`gAssign`, node 4 assigns an `Int` into a `Ref Int`), inference returns
`Bool` — the L1 `Type` has no `Unit` at all, so the result is not `Unit`
as the claim states. -/
theorem C7_assign_infers_bool_concrete :
    L1.infer 10 [] 4 gAssign [] 0 = .ok (.Bool, [], 0) := rfl

/-- Claim C7 (amended): for every well-typed `Assign` node — left-hand
side inferring literally to `Ref α` and right-hand side unifying with α —
inference returns `Bool` (the source comments: "assignment returns bool
(or unit, but defaulting to bool for now)"). -/
theorem C7_assign_infers_bool
    (fuel : Nat) (ctx : L1.TypingContext) (node_id : Nat)
    (g : Front.AsgGraph) (s : L1.Subst) (c : Nat)
    (nd : Front.AsgNode) (a : Front.TermAssign) (inner tv : L1.Ty)
    (s1 s2 s3 : L1.Subst) (c1 c2 : Nat)
    (hnode : g.get node_id = some nd)
    (hty : nd.type_ = .TermAssign)
    (hpay : nd.term_assign = some a)
    (href : L1.infer fuel ctx a.ref_node_id g s c = .ok (.Ref inner, s1, c1))
    (hval : L1.infer fuel ctx a.value_node_id g s1 c1 = .ok (tv, s2, c2))
    (huni : L1.unify (fuel + 1) inner tv s2 = .ok s3) :
    L1.infer (fuel + 1) ctx node_id g s c = .ok (.Bool, s3, c2) := by
  simp only [L1.infer, hnode, hty, hpay, href, hval, Res.bind, huni]

/-- Witness for the amended C7 theorem on `gAssign`. -/
theorem C7_witness : L1.infer 10 [] 4 gAssign [] 0 = .ok (.Bool, [], 0) :=
  C7_assign_infers_bool 9 [] 4 gAssign [] 0
    { type_ := .TermAssign,
      term_assign := some { ref_node_id := 2, value_node_id := 3 } }
    { ref_node_id := 2, value_node_id := 3 }
    .Int .Int [] [] [] 0 0 rfl rfl rfl rfl rfl rfl

/-- Claim C8: on `gMeta` both diagnostics for node 1 carry the source
location of the graph's only `Metadata` node even though that metadata's
target field is 7, not 1 — the linter returns the first location found
without checking the target. -/
theorem C8_location_ignores_target :
    (Linter.lint_graph gMeta).map (fun e => e.location) =
      [some mLocOut, some mLocOut] ∧
    (Linter.lint_graph gMeta).map (fun e => e.node_id) = [1, 1] ∧
    (alookup gMeta.nodes 2).bind (fun n => n.metadata.map (fun m => m.node_id)) =
      some 7 ∧
    (7 : Nat) ≠ 1 := by
  refine ⟨rfl, rfl, rfl, ?_⟩
  decide

-- C3: serialization round-trip --------------------------------------

/-- Folding `from_proto`'s node loop over nodes with fresh, duplicate-free
ids appends exactly the rekeyed entries. -/
theorem foldl_fromProtoStep_nodes (ns : List AsgCore.AsgNode) :
    ∀ (acc : List (Nat × AsgCore.AsgNode)) (c : Nat),
    (∀ n ∈ ns, ∀ p ∈ acc, p.1 ≠ n.node_id) →
    (ns.map (fun n => n.node_id)).Nodup →
    (List.foldl AsgCore.fromProtoStep (acc, c) ns).1 =
      acc ++ ns.map (fun n => (n.node_id, n)) := by
  induction ns with
  | nil => intro acc c _ _; simp
  | cons n ns ih =>
    intro acc c hdisj hnodup
    rw [List.map_cons] at hnodup
    obtain ⟨hnotin, hnd⟩ := List.nodup_cons.mp hnodup
    rw [List.foldl_cons]
    have hstep : AsgCore.fromProtoStep (acc, c) n =
        (acc ++ [(n.node_id, n)],
         if n.node_id ≥ c then n.node_id + 1 else c) := by
      simp only [AsgCore.fromProtoStep, hmInsert]
      rw [filter_ne_of_not_mem acc n.node_id
        (fun p hp => hdisj n (List.mem_cons_self _ _) p hp)]
    rw [hstep]
    rw [ih (acc ++ [(n.node_id, n)]) _ ?_ hnd]
    · simp
    · intro m hm p hp
      rcases List.mem_append.mp hp with hp | hp
      · exact hdisj m (List.mem_cons_of_mem _ hm) p hp
      · have hp' : p = (n.node_id, n) := by simpa using hp
        subst hp'
        intro hcon
        apply hnotin
        have : m.node_id ∈ ns.map (fun x => x.node_id) :=
          List.mem_map_of_mem (fun x => x.node_id) hm
        simpa [← hcon] using this

/-- On a graph whose map keys match the nodes' own ids (and are
duplicate-free), `from_proto ∘ into_proto` rebuilds the node table
exactly. -/
theorem rebuilt_nodes_eq (g : AsgCore.AsgGraph)
    (hids : ∀ p ∈ g.nodes, p.2.node_id = p.1)
    (hnodup : (g.nodes.map Prod.fst).Nodup) :
    ((g.nodes.map Prod.snd).foldl AsgCore.fromProtoStep
        ([], AsgCore.AsgGraph.new.next_id)).1 = g.nodes := by
  rw [foldl_fromProtoStep_nodes (g.nodes.map Prod.snd) [] _
    (by intro n hn p hp; cases hp) ?_]
  · rw [List.nil_append, List.map_map]
    have hcg : ∀ p ∈ g.nodes, ((fun n => (n.node_id, n)) ∘ Prod.snd) p = id p := by
      intro p hp
      simp [hids p hp]
    rw [List.map_congr_left hcg, List.map_id]
  · rw [List.map_map]
    have hcg : ∀ p ∈ g.nodes, ((fun n => n.node_id) ∘ Prod.snd) p = Prod.fst p := by
      intro p hp
      simp [hids p hp]
    rw [List.map_congr_left hcg]
    exact hnodup

/-- Claim C3: for a graph with no dangling references — map keys match the
nodes' ids, keys are duplicate-free and non-zero, and the root (when set)
resolves — saving to the binary form and loading back yields a graph with
the same `hash_graph` digest (for every digest function `H`) and the same
root. -/
theorem C3_binary_roundtrip (H : List Nat → List Nat) (g : AsgCore.AsgGraph)
    (hids : ∀ p ∈ g.nodes, p.2.node_id = p.1)
    (hnodup : (g.nodes.map Prod.fst).Nodup)
    (h0 : ∀ p ∈ g.nodes, p.1 ≠ 0)
    (hroot : match g.root_id with
             | some r => (alookup g.nodes r).isSome = true
             | none => True) :
    AsgCore.hash_graph H (AsgCore.load_asg_binary (AsgCore.save_asg_binary g)) =
      AsgCore.hash_graph H g ∧
    (AsgCore.load_asg_binary (AsgCore.save_asg_binary g)).root_id = g.root_id := by
  have hnodes :
      (AsgCore.load_asg_binary (AsgCore.save_asg_binary g)).nodes = g.nodes := by
    simp only [AsgCore.load_asg_binary, AsgCore.save_asg_binary,
      AsgCore.encodeProto, AsgCore.decodeProto, AsgCore.AsgGraph.from_proto,
      AsgCore.AsgGraph.into_proto]
    exact rebuilt_nodes_eq g hids hnodup
  have hrt :
      (AsgCore.load_asg_binary (AsgCore.save_asg_binary g)).root_id = g.root_id := by
    simp only [AsgCore.load_asg_binary, AsgCore.save_asg_binary,
      AsgCore.encodeProto, AsgCore.decodeProto, AsgCore.AsgGraph.from_proto,
      AsgCore.AsgGraph.into_proto]
    rw [rebuilt_nodes_eq g hids hnodup]
    cases hr : g.root_id with
    | none => simp
    | some r =>
      rw [hr] at hroot
      obtain ⟨v, hv⟩ := Option.isSome_iff_exists.mp hroot
      have hr0 : r ≠ 0 := h0 (r, v) (alookup_mem hv)
      simp [hr0, hroot]
  refine ⟨?_, hrt⟩
  simp only [AsgCore.hash_graph, AsgCore.hashGraphStream, hnodes, hrt]

/-- Witness for C3 on the one-node graph `gCore1` with the identity digest
function. -/
theorem C3_witness :
    AsgCore.hash_graph (fun l => l)
        (AsgCore.load_asg_binary (AsgCore.save_asg_binary gCore1)) =
      AsgCore.hash_graph (fun l => l) gCore1 ∧
    (AsgCore.load_asg_binary (AsgCore.save_asg_binary gCore1)).root_id =
      gCore1.root_id :=
  C3_binary_roundtrip (fun l => l) gCore1 (by decide) (by decide) (by decide) rfl

-- C5: validator soundness ---------------------------------------------

/-- An empty reference check means the target resolves. -/
theorem refCheck_nil {g : Front.AsgGraph} {n t : Nat} {m : String}
    (h : Linter.refCheck g n t m = []) : Linter.containsNode g t = true := by
  unfold Linter.refCheck at h
  cases hc : Linter.containsNode g t
  · rw [hc] at h
    simp at h
  · rfl

/-- If a node contributes no `INTEGRITY` errors, every reference field the
linter checks on it resolves. -/
theorem nodeRef_resolves {g : Front.AsgGraph} {nid : Nat} {node : Front.AsgNode}
    (h : Linter.nodeRefErrors g nid node = []) :
    ∀ r ∈ Linter.checkedRefIds node, Linter.containsNode g r = true := by
  intro r hr
  unfold Linter.nodeRefErrors at h
  unfold Linter.checkedRefIds at hr
  cases htype : node.type_ <;> rw [htype] at h hr
  case TermVariable =>
    cases hv : node.term_variable <;> rw [hv] at h hr
    · cases hr
    · rw [List.mem_singleton] at hr
      subst hr
      exact refCheck_nil h
  case TermLambda =>
    cases hv : node.term_lambda <;> rw [hv] at h hr
    · cases hr
    · rename_i lambda
      rcases List.append_eq_nil.mp h with ⟨h12, h3⟩
      rcases List.append_eq_nil.mp h12 with ⟨h1, h2⟩
      rcases List.mem_append.mp hr with hr | hr
      · rcases List.mem_cons.mp hr with rfl | hr
        · exact refCheck_nil h1
        · rw [List.mem_singleton] at hr
          subst hr
          exact refCheck_nil h2
      · cases ha : lambda.type_annotation_id <;> rw [ha] at h3 hr
        · cases hr
        · rw [Option.toList_some, List.mem_singleton] at hr
          subst hr
          exact refCheck_nil h3
  case TermApplication =>
    cases hv : node.term_application <;> rw [hv] at h hr
    · cases hr
    · rcases List.append_eq_nil.mp h with ⟨h1, h2⟩
      rcases List.mem_cons.mp hr with rfl | hr
      · exact refCheck_nil h1
      · rw [List.mem_singleton] at hr
        subst hr
        exact refCheck_nil h2
  case TermRef =>
    cases hv : node.term_ref <;> rw [hv] at h hr
    · cases hr
    · rw [List.mem_singleton] at hr
      subst hr
      exact refCheck_nil h
  case TermDeref =>
    cases hv : node.term_deref <;> rw [hv] at h hr
    · cases hr
    · rw [List.mem_singleton] at hr
      subst hr
      exact refCheck_nil h
  case TermAssign =>
    cases hv : node.term_assign <;> rw [hv] at h hr
    · cases hr
    · rcases List.append_eq_nil.mp h with ⟨h1, h2⟩
      rcases List.mem_cons.mp hr with rfl | hr
      · exact refCheck_nil h1
      · rw [List.mem_singleton] at hr
        subst hr
        exact refCheck_nil h2
  all_goals cases hr

/-- If a variable node contributes no `SCOPE` errors, its definition
resolves to a `TermLambda` node. -/
theorem nodeScope_resolves {g : Front.AsgGraph} {nid : Nat}
    {node : Front.AsgNode} {v : Front.TermVariable}
    (h : Linter.nodeScopeErrors g nid node = [])
    (htype : node.type_ = .TermVariable)
    (hvar : node.term_variable = some v) :
    ∃ dn, alookup g.nodes v.definition_node_id = some dn ∧
      dn.type_ = Front.NodeType.TermLambda := by
  unfold Linter.nodeScopeErrors at h
  simp only [htype, hvar] at h
  cases hd : alookup g.nodes v.definition_node_id
  · rw [hd] at h
    simp at h
  · rename_i dn
    rw [hd] at h
    cases hdt : dn.type_ <;> simp only [hdt] at h <;>
      first
      | exact ⟨dn, rfl, hdt⟩
      | simp at h

/-- Claim C5 counterexample: `gPrimDangling` lints clean although its
`PrimitiveOp` node mentions argument id 999, which does not resolve — the
linter checks no `PrimitiveOp` (nor `EffectPerform`/`Metadata`) ids. -/
theorem C5_primop_args_unchecked :
    Linter.lint_graph gPrimDangling = [] ∧
    (alookup gPrimDangling.nodes 1).bind
      (fun n => n.primitive_op.map (fun op => op.argument_node_ids)) =
      some [999] ∧
    alookup gPrimDangling.nodes 999 = none := by
  refine ⟨rfl, rfl, rfl⟩

/-- Claim C5 (amended): if the linter reports nothing, then every id in
the reference fields it does check — variable definitions, lambda
binder/body/annotation, application function/argument, ref initialiser,
deref target, assignment target/value — resolves in the node map, and
every variable's definition resolves to a `TermLambda` binder. -/
theorem C5_lint_empty_refs_resolve (g : Front.AsgGraph)
    (h : Linter.lint_graph g = []) :
    (∀ p ∈ g.nodes, ∀ r ∈ Linter.checkedRefIds p.2,
        (alookup g.nodes r).isSome = true) ∧
    (∀ p ∈ g.nodes, ∀ v : Front.TermVariable,
        p.2.type_ = Front.NodeType.TermVariable →
        p.2.term_variable = some v →
        ∃ dn, alookup g.nodes v.definition_node_id = some dn ∧
          dn.type_ = Front.NodeType.TermLambda) := by
  unfold Linter.lint_graph at h
  rcases List.append_eq_nil.mp h with ⟨h12, _⟩
  rcases List.append_eq_nil.mp h12 with ⟨h1, h2⟩
  constructor
  · intro p hp r hr
    exact nodeRef_resolves (flatMap_eq_nil h1 p hp) r hr
  · intro p hp v htype hvar
    exact nodeScope_resolves (flatMap_eq_nil h2 p hp) htype hvar

/-- Witness for the amended C5 theorem on the clean identity graph. -/
theorem C5_witness : (alookup gClean.nodes 2).isSome = true :=
  (C5_lint_empty_refs_resolve gClean (by decide)).1
    (1, { type_ := .TermVariable,
          term_variable := some { name := "x", definition_node_id := 2 } })
    (by decide) 2 (by decide)

-- C9: id monotonicity -------------------------------------------------

/-- A trace without insertions returns no ids. -/
theorem runOps_no_insert (ops : List AsgCore.GOp)
    (h : AsgCore.countInserts ops = 0) :
    ∀ g, (AsgCore.runOps g ops).2 = [] := by
  induction ops with
  | nil => intro g; rfl
  | cons op ops ih =>
    intro g
    cases op with
    | insert t c =>
      simp [AsgCore.countInserts, List.countP_cons] at h
    | remove id =>
      have h' : AsgCore.countInserts ops = 0 := by
        simpa [AsgCore.countInserts, List.countP_cons] using h
      simpa [AsgCore.runOps] using ih h' (g.remove_node id)

/-- As long as the `u64` counter cannot wrap, a trace starting at counter
`next_id` returns exactly the ids `next_id, next_id + 1, …`, one per
insertion, in order. -/
theorem runOps_ids (ops : List AsgCore.GOp) :
    ∀ g : AsgCore.AsgGraph,
    g.next_id + AsgCore.countInserts ops ≤ 2 ^ 64 →
    (AsgCore.runOps g ops).2 =
      List.range' g.next_id (AsgCore.countInserts ops) := by
  induction ops with
  | nil => intro g h; rfl
  | cons op ops ih =>
    intro g h
    cases op with
    | remove id =>
      have hc : AsgCore.countInserts (.remove id :: ops) =
          AsgCore.countInserts ops := by
        simp [AsgCore.countInserts, List.countP_cons]
      rw [hc] at h ⊢
      have hnext : (g.remove_node id).next_id = g.next_id := rfl
      simp only [AsgCore.runOps]
      rw [ih (g.remove_node id) (by rw [hnext]; exact h), hnext]
    | insert t c =>
      have hc : AsgCore.countInserts (.insert t c :: ops) =
          AsgCore.countInserts ops + 1 := by
        simp [AsgCore.countInserts, List.countP_cons]
      rw [hc] at h ⊢
      simp only [AsgCore.runOps, AsgCore.AsgGraph.add_node,
        AsgCore.AsgGraph.generate_id]
      rw [List.range'_succ]
      by_cases hlt : g.next_id + 1 < 2 ^ 64
      · have hmod : (g.next_id + 1) % 2 ^ 64 = g.next_id + 1 :=
          Nat.mod_eq_of_lt hlt
        have := ih
          { nodes := hmInsert g.nodes g.next_id
              { node_id := g.next_id, type_ := t, content := some c },
            next_id := (g.next_id + 1) % 2 ^ 64, root_id := g.root_id }
          (by simp only [hmod]; omega)
        simp only [hmod] at this
        have hlit : (g.next_id + 1) % 18446744073709551616 = g.next_id + 1 := hmod
        simp [this, hlit]
      · have hz : AsgCore.countInserts ops = 0 := by omega
        rw [hz]
        simp [runOps_no_insert ops hz]

/-- Claim C9: over any trace of insertions and removals from the empty
graph in which the `u64` id counter cannot wrap, the ids returned by the
insertions are strictly increasing in order of return (hence never
reused), and 0 is never returned. -/
theorem C9_insert_ids_monotone (ops : List AsgCore.GOp)
    (h : AsgCore.countInserts ops ≤ 2 ^ 64 - 1) :
    (AsgCore.runOps AsgCore.AsgGraph.new ops).2.Pairwise (· < ·) ∧
    0 ∉ (AsgCore.runOps AsgCore.AsgGraph.new ops).2 := by
  have hb : AsgCore.AsgGraph.new.next_id + AsgCore.countInserts ops ≤ 2 ^ 64 := by
    have hn : AsgCore.AsgGraph.new.next_id = 1 := rfl
    omega
  rw [runOps_ids ops _ hb]
  constructor
  · exact List.pairwise_lt_range' ..
  · intro hm
    rw [List.mem_range'_1] at hm
    have hn : AsgCore.AsgGraph.new.next_id = 1 := rfl
    omega

/-- Witness for C9 on a concrete trace: insert, remove, insert. -/
theorem C9_witness :
    (AsgCore.runOps AsgCore.AsgGraph.new
      [.insert 4 (.LiteralInt ⟨1⟩), .remove 1,
       .insert 4 (.LiteralInt ⟨2⟩)]).2.Pairwise (· < ·) ∧
    0 ∉ (AsgCore.runOps AsgCore.AsgGraph.new
      [.insert 4 (.LiteralInt ⟨1⟩), .remove 1,
       .insert 4 (.LiteralInt ⟨2⟩)]).2 :=
  C9_insert_ids_monotone _ (by decide)

-- C10: lowering root handling -----------------------------------------

/-- Claim C10 counterexample: `gCycLambda`'s root (node 1) is a `Lambda`,
yet lowering returns `NodeNotLowerable(1)` — lowering the lambda's body
re-encounters the root, whose kind falls into `lower_expr`'s catch-all. -/
theorem C10_lambda_root_not_lowerable :
    Lowering.lower_graph_to_upir 10 gCycLambda tmCycLambda =
      .err (.NodeNotLowerable 1) ∧
    (gCycLambda.get 1).map (fun n => n.type_) =
      some Front.NodeType.TermLambda ∧
    gCycLambda.root_node_id = 1 :=
  ⟨rfl, rfl, rfl⟩

/-- Claim C10 (amended): when the root id does not resolve (including an
unset root, id 0), lowering succeeds with a module containing no
functions; whenever the root resolves to a node whose kind is not
`TermLambda`, lowering returns `NodeNotLowerable(root)` (a `TermLambda`
root can also produce that error, from its own body — see the
counterexample). -/
theorem C10_lower_root_cases (fuel : Nat) (g : Front.AsgGraph)
    (tm : Lowering.TypeCheckMap) :
    (g.get g.root_node_id = none →
      Lowering.lower_graph_to_upir fuel g tm =
        .ok { name := "main", functions := [] }) ∧
    (∀ nd, g.get g.root_node_id = some nd →
      nd.type_ ≠ Front.NodeType.TermLambda →
      Lowering.lower_graph_to_upir fuel g tm =
        .err (.NodeNotLowerable g.root_node_id)) := by
  constructor
  · intro h
    simp only [Lowering.lower_graph_to_upir, h]
    rfl
  · intro nd h hne
    simp only [Lowering.lower_graph_to_upir, h]

/-- Witness for the amended C10 theorem: an unresolvable root yields the
empty module; an `Int`-literal root yields `NodeNotLowerable`. -/
theorem C10_witness :
    Lowering.lower_graph_to_upir 5 gNoRoot [] =
      .ok { name := "main", functions := [] } ∧
    Lowering.lower_graph_to_upir 5 gIntRoot [] =
      .err (.NodeNotLowerable 1) :=
  ⟨(C10_lower_root_cases 5 gNoRoot []).1 rfl,
   (C10_lower_root_cases 5 gIntRoot []).2
     { type_ := .LiteralInt, literal_int := some 1 } rfl (by decide)⟩
